import Mathlib

/-!
# troubleshoot-live: proxy request logging / routing and envtest provisioning

A shallow embedding of `pkg/proxy/server.go` and `pkg/envtest/setup.go`.

Go values are modelled as follows.

* `error` is `Option String` (`none` is `nil`); a pointer result that may be
  `nil` is an `Option`.
* An `http.ResponseWriter` is an interface value: a method table
  (`ResponseWriter S`) together with the state `S` of its receiver, which is
  threaded explicitly through every call.
* The code of a handler is opaque; what matters to the proxy is the sequence of
  calls it issues on the `ResponseWriter` it is handed, each of which may depend
  on what earlier `Write` calls returned. That is a `Script`.
* Everything observable from the outside (calls that reach the connection's
  own `ResponseWriter`, lines printed on standard output) is appended, in
  order, to the `trace` of the `World`.
-/

/-! # The proxy handler: `pkg/proxy/server.go` -/

namespace Proxy

/-- A byte slice `[]byte`. -/
abbrev Bytes := List UInt8

/-- Go `error`: `none` is `nil`, `some msg` an error with message `msg`. -/
abbrev Error := Option String

/-- The fields of `*url.URL` the router reads. `Path` is the decoded path.
`StringWithPath p` is the text `String()` gives for a copy of this URL whose
`Path` has been set to `p` (query and fragment kept); the escaping rules of
`net/url` are not modelled. -/
structure URL where
  Path : String
  StringWithPath : String → String

/-- The fields of `*http.Request` the proxy reads: the method, the unmodified
request target of the request line, the parsed URL. -/
structure Request where
  Method : String
  RequestURI : String
  URL : URL

/-- Method table of an `http.ResponseWriter` whose receiver has state `S`.
`HeaderSet` stands for `w.Header().Set(key, value)`. -/
structure ResponseWriter (S : Type) where
  HeaderSet : S → String → String → S
  Write : S → Bytes → S × Int × Error
  WriteHeader : S → Int → S

/-- What code holding a `ResponseWriter` with receiver state `S` can act on:
the writer's methods and the process's standard output. All state is threaded
through the receiver, so printing a line is an action on `S` as well. -/
structure Sys (S : Type) extends ResponseWriter S where
  Stdout : S → String → S

/-- An `http.Handler`: `ServeHTTP(w, r)` for whatever `ResponseWriter` it is
handed. -/
structure GoHandler where
  ServeHTTP : {S : Type} → Sys S → S → Request → S

/-- The calls a handler issues on its `ResponseWriter`, in program order, up
to its return. The continuation of `write` receives the `(int, error)` that
`Write` returned. A handler that panics or never returns has no `Script`. -/
inductive Script where
  | ret : Script
  | headerSet (key value : String) (next : Script) : Script
  | write (p : Bytes) (next : Int → Error → Script) : Script
  | writeHeader (status : Int) (next : Script) : Script

/-- The body of an `http.Handler` whose effects are calls on the
`ResponseWriter` it is handed (it prints nothing on standard output). -/
abbrev Handler := Request → Script

/-- Run a handler body against the writer `W` whose receiver is in state `s`;
the result is the receiver's state when the handler returns. -/
def Script.run {S : Type} (W : ResponseWriter S) : Script → S → S
  | .ret, s => s
  | .headerSet k v next, s => next.run W (W.HeaderSet s k v)
  | .write p next, s =>
      let r := W.Write s p
      (next r.2.1 r.2.2).run W r.1
  | .writeHeader status next, s => next.run W (W.WriteHeader s status)

/-- The `http.Handler` with body `h`. -/
def Handler.toGo (h : Handler) : GoHandler where
  ServeHTTP E s r := (h r).run E.toResponseWriter s

/-- The statuses the handler body passes to `WriteHeader`, in call order, when
run against `W` from state `s`. -/
def Script.statuses {S : Type} (W : ResponseWriter S) : Script → S → List Int
  | .ret, _ => []
  | .headerSet k v next, s => next.statuses W (W.HeaderSet s k v)
  | .write p next, s =>
      let r := W.Write s p
      (next r.2.1 r.2.2).statuses W r.1
  | .writeHeader status next, s => status :: next.statuses W (W.WriteHeader s status)

/-- The handler body never calls `WriteHeader`, whatever `Write` returns. -/
inductive Script.NoWriteHeader : Script → Prop where
  | ret : Script.NoWriteHeader .ret
  | headerSet (k v : String) {next : Script} :
      Script.NoWriteHeader next → Script.NoWriteHeader (.headerSet k v next)
  | write (p : Bytes) {next : Int → Error → Script} :
      (∀ n e, Script.NoWriteHeader (next n e)) → Script.NoWriteHeader (.write p next)

/-- What can be observed from outside the process while a request is served. -/
inductive Event where
  | HeaderSet (key value : String) : Event
  | Write (p : Bytes) : Event
  | WriteHeader (status : Int) : Event
  | Stdout (line : String) : Event
deriving DecidableEq, Repr

/-- Is the event a line on standard output. -/
def Event.isStdout : Event → Bool
  | .Stdout _ => true
  | _ => false

/-- The calls the handler body issues on the writer it is handed, in order,
when that writer is `W` in state `s`. -/
def Script.calls {S : Type} (W : ResponseWriter S) : Script → S → List Event
  | .ret, _ => []
  | .headerSet k v next, s => .HeaderSet k v :: next.calls W (W.HeaderSet s k v)
  | .write p next, s =>
      let r := W.Write s p
      .Write p :: (next r.2.1 r.2.2).calls W r.1
  | .writeHeader status next, s => .WriteHeader status :: next.calls W (W.WriteHeader s status)

/-- The state a request is served in: `conn` is the state of the
`ResponseWriter` the HTTP server created for the connection, `trace` the
observable events so far, oldest first. -/
structure World (ω : Type) where
  conn : ω
  trace : List Event

/-- The `ResponseWriter` the HTTP server passes to the top-level handler. Its
behaviour `C` is arbitrary; every call that reaches it is appended to the
trace. -/
def connWriter {ω : Type} (C : ResponseWriter ω) : ResponseWriter (World ω) where
  HeaderSet w k v := { conn := C.HeaderSet w.conn k v, trace := w.trace ++ [.HeaderSet k v] }
  Write w p :=
    let r := C.Write w.conn p
    ({ conn := r.1, trace := w.trace ++ [.Write p] }, r.2.1, r.2.2)
  WriteHeader w status :=
    { conn := C.WriteHeader w.conn status, trace := w.trace ++ [.WriteHeader status] }

/-- The top-level environment of a request: the connection's writer, and
standard output, whose lines are appended to the trace. -/
def connSys {ω : Type} (C : ResponseWriter ω) : Sys (World ω) where
  toResponseWriter := connWriter C
  Stdout w line := { w with trace := w.trace ++ [.Stdout line] }

/-- Lines 29-32: `type LogRecorder struct { http.ResponseWriter; status int }`. -/
structure LogRecorder (S : Type) where
  ResponseWriter : S
  status : Int

/-- Lines 34-36: `Write` hands the slice to the embedded writer and returns what
it returned. -/
def LogRecorder.Write {S : Type} (W : Proxy.ResponseWriter S) (r : LogRecorder S) (p : Bytes) :
    LogRecorder S × Int × Error :=
  let res := W.Write r.ResponseWriter p
  ({ r with ResponseWriter := res.1 }, res.2.1, res.2.2)

/-- Lines 38-41: `WriteHeader` stores the status, then calls the embedded
writer. -/
def LogRecorder.WriteHeader {S : Type} (W : Proxy.ResponseWriter S) (r : LogRecorder S)
    (status : Int) : LogRecorder S :=
  let r := { r with status := status }
  { r with ResponseWriter := W.WriteHeader r.ResponseWriter status }

/-- The method set of `*LogRecorder`: `Write` and `WriteHeader` as declared,
`Header` promoted from the embedded `http.ResponseWriter`. Standard output is
the process's, reached through the embedded writer's state. -/
def LogRecorder.sys {S : Type} (E : Sys S) : Sys (LogRecorder S) where
  HeaderSet r k v := { r with ResponseWriter := E.HeaderSet r.ResponseWriter k v }
  Write := LogRecorder.Write E.toResponseWriter
  WriteHeader := LogRecorder.WriteHeader E.toResponseWriter
  Stdout r line := { r with ResponseWriter := E.Stdout r.ResponseWriter line }

/-- The text of `fmt.Println(status, method, uri)`: the operands in default
format, separated by single spaces, followed by a newline. -/
def printlnText (status : Int) (method uri : String) : String :=
  toString status ++ " " ++ method ++ " " ++ uri ++ "\n"

/-- Lines 43-51: `loggingMiddleware(next)`. The composite literal
`&LogRecorder{ResponseWriter: w}` leaves `status` at the zero value of `int`;
`fmt.Println` runs once `next.ServeHTTP` has returned. -/
def loggingMiddleware (next : GoHandler) : GoHandler where
  ServeHTTP E w r :=
    let writerWrap := { ResponseWriter := w, status := 0 : LogRecorder _ }
    let writerWrap := next.ServeHTTP (LogRecorder.sys E) writerWrap r
    E.Stdout writerWrap.ResponseWriter (printlnText writerWrap.status r.Method r.RequestURI)

/-! ## The `gorilla/mux` router, as far as `New` uses it

`New` builds its handler from the library calls `mux.NewRouter`, `Use`,
`Handle` and `PathPrefix(..).Handler`. The library's behaviour for a router
built this way (default options, path matchers only) is modelled here: the
path is put in canonical form first and a request whose path changes by that is
answered with a redirect; otherwise the routes are tried in the order they were
registered and the first whose matchers accept the request decides the handler,
around which the middlewares are wrapped; a request no route matches goes to
`http.NotFoundHandler()`. -/

/-- One piece of a compiled path template: literal text, or a variable
`{name}`, which stands for the pattern `[^/]+`. -/
inductive Part where
  | lit (text : List Char) : Part
  | var (name : List Char) : Part
deriving DecidableEq, Repr

/-- Cut a template at its braces. `inVar` tells whether the text read last is
inside braces, `acc` is that text. Variables with a pattern of their own
(`{name:pattern}`) are not modelled. -/
def parseTemplate (inVar : Bool) (acc : List Char) : List Char → List Part
  | [] => if acc = [] then [] else [if inVar then .var acc else .lit acc]
  | c :: cs =>
      if !inVar && c = '{' then
        (if acc = [] then [] else [.lit acc]) ++ parseTemplate true [] cs
      else if inVar && c = '}' then
        .var acc :: parseTemplate false [] cs
      else
        parseTemplate inVar (acc ++ [c]) cs

/-- Does `[^/]+` followed by whatever `k` accepts match the text. -/
def matchVar (k : List Char → Bool) : List Char → Bool
  | [] => false
  | c :: cs => c != '/' && (k cs || matchVar k cs)

/-- Does the regular expression the template compiles to match the path from
its start: anchored at the end (`$`) unless `openEnd`, the case of
`PathPrefix`. -/
def matchParts (openEnd : Bool) : List Part → List Char → Bool
  | [], rest => openEnd || rest.isEmpty
  | .lit text :: ps, path => text.isPrefixOf path && matchParts openEnd ps (path.drop text.length)
  | .var _ :: ps, path => matchVar (matchParts openEnd ps) path

/-- A route with one path matcher: `r.Handle(tpl, handler)` when `openEnd` is
false, `r.PathPrefix(tpl).Handler(handler)` when it is true. -/
structure Route where
  tpl : String
  openEnd : Bool
  handler : GoHandler

/-- The result of `Route.Match`: the route's only matcher is its path matcher, run on
`req.URL.Path`. -/
def Route.Match (rt : Route) (req : Request) : Bool :=
  matchParts rt.openEnd (parseTemplate false [] rt.tpl.data) req.URL.Path.data

/-- The part of `mux.Router` that `New` sets: the middlewares of `Use` and the routes,
both in registration order. -/
structure Router where
  middlewares : List (GoHandler → GoHandler)
  routes : List Route

/-- The route `Router.Match` selects: the first one, in registration order,
that matches the request. -/
def Router.matchRoute (routes : List Route) (req : Request) : Option Route :=
  routes.find? (fun rt => rt.Match req)

/-- The handler `Router.Match` builds once a route matched: the middlewares
wrapped around the route's handler, the one registered first outermost. -/
def Router.chain (middlewares : List (GoHandler → GoHandler)) (h : GoHandler) : GoHandler :=
  middlewares.foldr (fun mw acc => mw acc) h

/-- Split at every `/`, as `strings.Split(p, "/")` does. -/
def splitSlash : List Char → List (List Char)
  | [] => [[]]
  | c :: cs =>
      if c = '/' then [] :: splitSlash cs
      else
        match splitSlash cs with
        | [] => [[c]]
        | seg :: segs => (c :: seg) :: segs

/-- The elements `path.Clean` keeps of a rooted path: empty elements and `.`
are dropped, `..` removes the element kept last (and is dropped itself at the
root). `out` holds the kept elements, last first. -/
def cleanSegs (out : List (List Char)) : List (List Char) → List (List Char)
  | [] => out.reverse
  | seg :: rest =>
      if seg = [] ∨ seg = ['.'] then cleanSegs out rest
      else if seg = ['.', '.'] then cleanSegs out.tail rest
      else cleanSegs (seg :: out) rest

/-- Write every element after a `/`. -/
def joinSlash : List (List Char) → List Char
  | [] => []
  | seg :: rest => '/' :: (seg ++ joinSlash rest)

/-- The result of `path.Clean(p)` for a rooted `p` (one that starts with `/`), by the
rules the function documents. -/
def pathClean (p : List Char) : List Char :=
  match cleanSegs [] (splitSlash p) with
  | [] => ['/']
  | segs => joinSlash segs

/-- The router's `cleanPath`: the canonical form of a path. The empty path is
`/`; a path is made rooted, cleaned, and gets its trailing `/` back. -/
def cleanPath (p : String) : String :=
  if p.data = [] then "/"
  else
    let q := if p.data.head? = some '/' then p.data else '/' :: p.data
    let np := pathClean q
    String.mk (if q.getLast? = some '/' ∧ np ≠ ['/'] then np ++ ['/'] else np)

/-- The body of `http.NotFoundHandler()`: status 404 and the fixed text (the headers
`http.Error` sets are left out). -/
def NotFoundHandler : Handler := fun _ =>
  .writeHeader 404 (.write "404 page not found\n".toUTF8.toList (fun _ _ => .ret))

/-- The method `ServeHTTP` of `*mux.Router`, for a router that keeps the default
`skipClean = false`. It first computes `cleanPath(req.URL.Path)`; when that
differs from the path it sets the `Location` header to the URL with the clean
path, calls `w.WriteHeader(http.StatusMovedPermanently)` and returns: no route
is consulted and no middleware runs. Otherwise the first matching route's
handler, inside the middlewares, serves the request; without a match
`http.NotFoundHandler()` does, outside the middlewares. -/
def Router.ServeHTTP (rt : Router) : GoHandler where
  ServeHTTP E w req :=
    let p := cleanPath req.URL.Path
    if p ≠ req.URL.Path then
      let w := E.HeaderSet w "Location" (req.URL.StringWithPath p)
      E.WriteHeader w 301
    else
      match Router.matchRoute rt.routes req with
      | some route => (Router.chain rt.middlewares route.handler).ServeHTTP E w req
      | none => NotFoundHandler.toGo.ServeHTTP E w req

/-- Lines 15-27: `New(cfg, b)`, statement by statement from `mux.NewRouter()`:
`r.Use(loggingMiddleware)`, `r.Handle(template, LogsHandler(b))`,
`r.PathPrefix("/").Handler(proxyHandler)`. `proxyHandler` is the handler
`ReverseProxyForAPIServerHandler(cfg)` returned, with `ModifyResponse` set
(when that call fails the process exits and nothing is returned);
`logsHandler` is `LogsHandler(b)`. -/
def New (proxyHandler logsHandler : GoHandler) : Router :=
  let r : Router := { middlewares := [], routes := [] }
  let r : Router := { r with middlewares := r.middlewares ++ [loggingMiddleware] }
  let r : Router := { r with routes := r.routes ++
    [Route.mk "/api/v1/namespaces/{namespace}/pods/{pod}/log" false logsHandler] }
  let r : Router := { r with routes := r.routes ++ [Route.mk "/" true proxyHandler] }
  r

/-! ## Auxiliary notions and concrete inputs -/

/-- A path element that `path.Clean` keeps as it is. -/
def GoodSeg (seg : List Char) : Prop :=
  seg ≠ [] ∧ '/' ∉ seg ∧ seg ≠ ['.'] ∧ seg ≠ ['.', '.']

/-- The path of a pod's log endpoint. -/
def logPath (ns pod : String) : String :=
  "/api/v1/namespaces/" ++ ns ++ "/pods/" ++ pod ++ "/log"

/-- A connection writer without state that accepts every call: `Write` reports
the whole slice written and no error. -/
def okConn : ResponseWriter Unit where
  HeaderSet _ _ _ := ()
  Write _ p := ((), p.length, none)
  WriteHeader _ _ := ()

/-- A request line and its parsed path; the URL renders as its path. -/
def mkRequest (method uri path : String) : Request :=
  { Method := method, RequestURI := uri, URL := { Path := path, StringWithPath := fun p => p } }

/-- The request of the pod-log scenario. -/
def podLogRequest : Request :=
  mkRequest "GET" "/api/v1/namespaces/default/pods/web-0/log?container=app"
    "/api/v1/namespaces/default/pods/web-0/log"

/-- A request for the log route's template with `..` as the namespace. -/
def dotDotRequest : Request :=
  mkRequest "GET" "/api/v1/namespaces/../pods/web-0/log" "/api/v1/namespaces/../pods/web-0/log"

/-- A request whose path has an empty element. -/
def doubleSlashRequest : Request := mkRequest "GET" "//version" "//version"

/-- A handler that writes a body and never calls `WriteHeader`. -/
def bodyOnly : Handler := fun _ => .write [108, 111, 103] (fun _ _ => .ret)

/-- A handler that calls `WriteHeader` twice, with 404 and then with 500. -/
def headerTwice : Handler := fun _ => .writeHeader 404 (.writeHeader 500 .ret)

/-- A handler that answers 502 with an empty body. -/
def badGateway : Handler := fun _ => .writeHeader 502 .ret

end Proxy

/-! # `pkg/envtest/setup.go`

The methods of `*env.Env` (package `setup-envtest/env`) are library code. They
act on the `Env` value and on the machine (local disk, remote bucket), and they
report failure by panicking. Their behaviour is a parameter (`EnvOps`); the
state of the machine is the field `sys` of the `Env`. -/

namespace Envtest

/-- Go `error`: `none` is `nil`, `some msg` an error with message `msg`. -/
abbrev Error := Option String

/-- The struct `versions.Spec`. The selector is represented by its text. -/
structure Spec where
  Selector : String
  CheckLatest : Bool := false
deriving DecidableEq, Repr

/-- The fields of `remote.Client` that `createEnvtest` sets (the logger is left out). -/
structure Client where
  Bucket : String
  Server : String
deriving DecidableEq, Repr

/-- The struct `versions.Platform`. -/
structure Platform where
  OS : String
  Arch : String
deriving DecidableEq, Repr

/-- The struct `env.Env`: the fields `createEnvtest` and `setupEnvtest` touch, without
the logger. `Store` is the directory the store is rooted at. `Out` is the
writer `PrintInfo` prints to: `none` is `nil`, `some text` a `*bytes.Buffer`
holding `text`. `sys` is the state of the file system and of the remote. -/
structure Env (σ : Type) where
  Version : Spec
  Client : Client
  VerifySum : Bool
  ForceDownload : Bool
  NoDownload : Bool
  Platform : Platform
  Store : String
  Out : Option String
  sys : σ

/-- How a method call on `*env.Env` ends: it returns `a`, or it panics with a
value whose `%s` text is `r`. Either way the receiver is left in state `e`. -/
inductive Ret (ε α : Type) where
  | ok (e : ε) (a : α) : Ret ε α
  | panic (e : ε) (r : String) : Ret ε α

/-- Values of `env.PrintFormat`. -/
inductive PrintFormat where
  | PrintOverview | PrintPath | PrintEnv
deriving DecidableEq, Repr

/-- The methods of `*env.Env` that `setupEnvtest` calls. -/
inductive Step where
  | CheckCoherence | EnsureBaseDirs | EnsureVersionIsSet | ExistsAndValid | Fetch | PrintInfo
deriving DecidableEq, Repr

/-- Behaviour of the methods of `*env.Env`. `PrintInfo` yields the text it
writes to `e.Out`. -/
structure EnvOps (σ : Type) where
  CheckCoherence : Env σ → Ret (Env σ) Unit
  EnsureBaseDirs : Env σ → Ret (Env σ) Unit
  EnsureVersionIsSet : Env σ → Ret (Env σ) Unit
  ExistsAndValid : Env σ → Ret (Env σ) Bool
  Fetch : Env σ → Ret (Env σ) Unit
  PrintInfo : Env σ → PrintFormat → Ret (Env σ) String

/-- State while `setupEnvtest` runs: the `Env` behind the pointer `e`, and the
methods called on it so far, oldest first. -/
structure RunState (σ : Type) where
  e : Env σ
  calls : List Step

/-- Code that runs on a `RunState` and returns a value or panics. -/
def Run (σ α : Type) := RunState σ → RunState σ × Except String α

/-- The `return a` of the `Run` monad. -/
def Run.pure {σ α : Type} (a : α) : Run σ α := fun s => (s, .ok a)

/-- Sequencing: a panic in the first part skips the second. -/
def Run.bind {σ α β : Type} (m : Run σ α) (f : α → Run σ β) : Run σ β := fun s =>
  match m s with
  | (s1, .ok a) => f a s1
  | (s1, .error r) => (s1, .error r)

instance {σ : Type} : Monad (Run σ) where
  pure := Run.pure
  bind := Run.bind

/-- Call the method `step` of `e`, whose behaviour is `m`. -/
def call {σ α : Type} (step : Step) (m : Env σ → Ret (Env σ) α) : Run σ α := fun s =>
  match m s.e with
  | .ok e a => ({ e := e, calls := s.calls ++ [step] }, .ok a)
  | .panic e r => ({ e := e, calls := s.calls ++ [step] }, .error r)

/-- Assign the field: `e.Out = out`. -/
def setOut {σ : Type} (out : Option String) : Run σ Unit := fun s =>
  ({ s with e := { s.e with Out := out } }, .ok ())

/-- Lines 65-78, the body of `setupEnvtest` up to its `return`: the value is
`out.String()`. The buffer is empty when `PrintInfo` is called, so it holds
what `PrintInfo` wrote. The context, which only carries the logger, is left
out. -/
def setupEnvtest.body {σ : Type} (ops : EnvOps σ) : Run σ String := do
  call .CheckCoherence ops.CheckCoherence
  call .EnsureBaseDirs ops.EnsureBaseDirs
  call .EnsureVersionIsSet ops.EnsureVersionIsSet
  if !(← call .ExistsAndValid ops.ExistsAndValid) then
    call .Fetch ops.Fetch
  setOut (some "")
  let out ← call .PrintInfo (fun e => ops.PrintInfo e .PrintPath)
  setOut none
  return out

/-- What `setupEnvtest` returns, with the state it leaves `e` in and the
methods it called. -/
structure SetupResult (σ : Type) where
  path : String
  err : Error
  e : Env σ
  calls : List Step

/-- Lines 58-79: `setupEnvtest(ctx, e)`. When the body returns, the named result
`err` is still `nil`. When it panics with `r`, the deferred function sets `err`
and the unnamed string result keeps its zero value. -/
def setupEnvtest {σ : Type} (ops : EnvOps σ) (e : Env σ) : SetupResult σ :=
  match setupEnvtest.body ops { e := e, calls := [] } with
  | (s, .ok out) => { path := out, err := none, e := s.e, calls := s.calls }
  | (s, .error r) =>
      { path := "", err := some ("failed setting up env: " ++ r), e := s.e, calls := s.calls }

/-- What `createEnvtest` reads from the process: `runtime.GOOS`,
`runtime.GOARCH`, the result of `store.DefaultStoreDir()`, and the machine. -/
structure Host (σ : Type) where
  GOOS : String
  GOARCH : String
  DefaultStoreDir : Except String String
  sys : σ

/-- Lines 81-111: `createEnvtest(ctx, serverVersion)`. -/
def createEnvtest {σ : Type} (host : Host σ) (serverVersion : Spec) : Except String (Env σ) :=
  match host.DefaultStoreDir with
  | .error err => .error err
  | .ok dataDir =>
      .ok {
        Version := serverVersion
        Client := { Bucket := "kubebuilder-tools", Server := "storage.googleapis.com" }
        VerifySum := false
        ForceDownload := false
        NoDownload := false
        Platform := { OS := host.GOOS, Arch := host.GOARCH }
        Store := dataDir
        Out := none
        sys := host.sys }

/-- The struct `envtest.Environment`: its scalar and slice fields, each at its zero value
unless set. -/
structure Environment where
  BinaryAssetsDirectory : String := ""
  CRDDirectoryPaths : List String := []
  ErrorIfCRDPathMissing : Bool := false
  UseExistingCluster : Option Bool := none
  ControlPlaneStartTimeout : Int := 0
  ControlPlaneStopTimeout : Int := 0
  KubeAPIServerFlags : List String := []
  AttachControlPlaneOutput : Bool := false
deriving DecidableEq, Repr

/-- What `Prepare` does that can be seen from outside, in order. `Log format
arg` is `log.Printf(format, arg)`; `ApplyOption i` is the call `opts[i](envConfig)`. -/
inductive PrepareEvent where
  | DetectK8sVersion : PrepareEvent
  | Log (format arg : String) : PrepareEvent
  | createEnvtest : PrepareEvent
  | ApplyOption (i : Nat) : PrepareEvent
  | Step (s : Step) : PrepareEvent
deriving DecidableEq, Repr

/-- What `Prepare` returns (`env` is `none` for a `nil` pointer), with its
events. -/
structure PrepareResult where
  env : Option Environment
  err : Error
  events : List PrepareEvent
deriving DecidableEq, Repr

/-- The config after `for _, o := range opts { o(envConfig) }`. -/
def applyOptions {σ : Type} (opts : List (Env σ → Env σ)) (envConfig : Env σ) : Env σ :=
  opts.foldl (fun e o => o e) envConfig

/-- Lines 27-56: `Prepare(ctx, b, opts...)`. `DetectK8sVersion` is the package's
function of that name, an `Option` a function that updates the config. -/
def Prepare {σ β : Type} (host : Host σ) (DetectK8sVersion : β → Except String String)
    (ops : EnvOps σ) (b : β) (opts : List (Env σ → Env σ)) : PrepareResult :=
  match DetectK8sVersion b with
  | .error err =>
      { env := none, err := some ("failed to detect k8s version: " ++ err),
        events := [.DetectK8sVersion] }
  | .ok detectedK8sVersion =>
      let events := [.DetectK8sVersion, .Log "Detected %q k8s version" detectedK8sVersion]
      let versionSpec : Spec := { Selector := detectedK8sVersion }
      match createEnvtest host versionSpec with
      | .error err => { env := none, err := some err, events := events ++ [.createEnvtest] }
      | .ok envConfig =>
          let events := events ++ [.createEnvtest]
          let envConfig := applyOptions opts envConfig
          let events := events ++ (List.range opts.length).map .ApplyOption
          let res := setupEnvtest ops envConfig
          let events := events ++ res.calls.map .Step
          match res.err with
          | some err => { env := none, err := some err, events := events }
          | none =>
              { env := some { BinaryAssetsDirectory := res.path }, err := none,
                events := events ++
                  [.Log "Using envtest binaries from directory: %s\n" res.path] }

/-! ## Concrete machines -/

/-- A machine whose only state is whether the binaries are installed. -/
structure Disk where
  installed : Bool
deriving DecidableEq, Repr

/-- The directory `PrintInfo` names on a `Disk` machine. -/
def assetsDir (e : Env Disk) : String :=
  e.Store ++ "/k8s/" ++ e.Version.Selector ++ "-" ++ e.Platform.OS ++ "-" ++ e.Platform.Arch

/-- Methods that never panic: `ExistsAndValid` reads the disk, `Fetch` installs
the binaries when `fetchInstalls` is set and leaves the disk as it is
otherwise. -/
def diskOps (fetchInstalls : Bool) : EnvOps Disk where
  CheckCoherence e := .ok e ()
  EnsureBaseDirs e := .ok e ()
  EnsureVersionIsSet e := .ok e ()
  ExistsAndValid e := .ok e e.sys.installed
  Fetch e := .ok { e with sys := { installed := fetchInstalls || e.sys.installed } } ()
  PrintInfo e _ := .ok e (assetsDir e)

/-- As `diskOps true`, but the method `failing` panics. -/
def panicOps (failing : Step) : EnvOps Disk where
  CheckCoherence e := if failing = .CheckCoherence then .panic e "incoherent" else .ok e ()
  EnsureBaseDirs e := if failing = .EnsureBaseDirs then .panic e "no base dirs" else .ok e ()
  EnsureVersionIsSet e :=
    if failing = .EnsureVersionIsSet then .panic e "no version" else .ok e ()
  ExistsAndValid e :=
    if failing = .ExistsAndValid then .panic e "store unreadable" else .ok e e.sys.installed
  Fetch e :=
    if failing = .Fetch then .panic e "download failed"
    else .ok { e with sys := { installed := true } } ()
  PrintInfo e _ := if failing = .PrintInfo then .panic e "no output" else .ok e (assetsDir e)

/-- A Linux host with a home directory and the given disk. -/
def linuxHost (installed : Bool) : Host Disk :=
  { GOOS := "linux", GOARCH := "amd64", DefaultStoreDir := .ok "/home/u/.local/share/kubebuilder-envtest",
    sys := { installed := installed } }

/-- A host on which the store directory cannot be determined. -/
def homelessHost : Host Disk :=
  { GOOS := "linux", GOARCH := "amd64",
    DefaultStoreDir := .error "neither $XDG_DATA_HOME nor $HOME are defined",
    sys := { installed := false } }

/-- Version detection on a bundle given by the version text it holds, if any. -/
def detectFrom (b : Option String) : Except String String :=
  match b with
  | some v => .ok v
  | none => .error "no version in bundle"

/-- The config `createEnvtest` builds on `linuxHost` for version 1.27.3. -/
def env127 (installed : Bool) : Env Disk :=
  { Version := { Selector := "1.27.3" }
    Client := { Bucket := "kubebuilder-tools", Server := "storage.googleapis.com" }
    VerifySum := false, ForceDownload := false, NoDownload := false
    Platform := { OS := "linux", Arch := "amd64" }
    Store := "/home/u/.local/share/kubebuilder-envtest", Out := none
    sys := { installed := installed } }

/-- The text of the error the deferred function builds from a panic value. -/
def recoveredError (r : String) : Error := some ("failed setting up env: " ++ r)

/-- The methods called when the entry is valid and nothing panics. -/
def validCalls : List Step :=
  [.CheckCoherence, .EnsureBaseDirs, .EnsureVersionIsSet, .ExistsAndValid, .PrintInfo]

/-- The methods called when the entry is not valid and nothing panics. -/
def fetchCalls : List Step :=
  [.CheckCoherence, .EnsureBaseDirs, .EnsureVersionIsSet, .ExistsAndValid, .Fetch, .PrintInfo]

end Envtest

/-! # Properties -/

namespace Proxy

/-! ## The recorder -/

/-- Running a handler body against the recorder: the embedded writer ends in
the state the body would have left it in had it been run against that writer
directly, and `status` holds the argument of the last `WriteHeader` call, or
its initial value when there was none. -/
theorem run_recorder {S : Type} (E : Sys S) (sc : Script) (rec : LogRecorder S) :
    sc.run (LogRecorder.sys E).toResponseWriter rec =
      { ResponseWriter := sc.run E.toResponseWriter rec.ResponseWriter,
        status := ((sc.statuses E.toResponseWriter rec.ResponseWriter).getLast?).getD
          rec.status } := by
  induction sc generalizing rec with
  | ret => simp [Script.run, Script.statuses]
  | headerSet k v next ih =>
      simp only [Script.run, Script.statuses]
      rw [ih]
      simp [LogRecorder.sys]
  | write p next ih =>
      simp only [Script.run, Script.statuses]
      rw [show (LogRecorder.sys E).toResponseWriter.Write rec p
          = LogRecorder.Write E.toResponseWriter rec p from rfl]
      simp only [LogRecorder.Write]
      rw [ih]
  | writeHeader status next ih =>
      simp only [Script.run, Script.statuses]
      rw [ih]
      simp only [show (LogRecorder.sys E).toResponseWriter.WriteHeader rec status
          = LogRecorder.WriteHeader E.toResponseWriter rec status from rfl,
        LogRecorder.WriteHeader]
      cases h : (next.statuses E.toResponseWriter
          (E.toResponseWriter.WriteHeader rec.ResponseWriter status)) with
      | nil => simp
      | cons a l => simp [List.getLast?_eq_getLast, List.getLast?_cons_cons]

/-- What `loggingMiddleware` does around a handler body: the body runs as it
would on the writer itself, then one line is printed. -/
theorem loggingMiddleware_serve {S : Type} (E : Sys S) (next : Handler) (w : S) (r : Request) :
    (loggingMiddleware next.toGo).ServeHTTP E w r =
      E.Stdout ((next r).run E.toResponseWriter w)
        (printlnText (((next r).statuses E.toResponseWriter w).getLast?.getD 0)
          r.Method r.RequestURI) := by
  simp only [loggingMiddleware, Handler.toGo]
  rw [run_recorder]

/-- The same on the connection's writer: the printed line is appended to the
trace the handler body left. -/
theorem loggingMiddleware_conn {ω : Type} (C : ResponseWriter ω) (next : Handler)
    (w : World ω) (r : Request) :
    (loggingMiddleware next.toGo).ServeHTTP (connSys C) w r =
      { conn := ((next r).run (connWriter C) w).conn,
        trace := ((next r).run (connWriter C) w).trace ++
          [.Stdout (printlnText (((next r).statuses (connWriter C) w).getLast?.getD 0)
            r.Method r.RequestURI)] } := by
  rw [loggingMiddleware_serve]
  rfl

/-- The calls a handler body issues on the recorder are the calls it would
issue on the embedded writer. -/
theorem calls_recorder {S : Type} (E : Sys S) (sc : Script) (rec : LogRecorder S) :
    sc.calls (LogRecorder.sys E).toResponseWriter rec =
      sc.calls E.toResponseWriter rec.ResponseWriter := by
  induction sc generalizing rec with
  | ret => rfl
  | headerSet k v next ih =>
      simp only [Script.calls]
      rw [ih]
      rfl
  | write p next ih =>
      simp only [Script.calls]
      rw [show (LogRecorder.sys E).toResponseWriter.Write rec p
          = LogRecorder.Write E.toResponseWriter rec p from rfl]
      simp only [LogRecorder.Write]
      rw [ih]
  | writeHeader status next ih =>
      simp only [Script.calls]
      rw [ih]
      rfl

/-- The calls a handler body issues on the connection's writer are what its run
appends to the trace. -/
theorem run_conn_calls {ω : Type} (C : ResponseWriter ω) (sc : Script) (w : World ω) :
    (sc.run (connWriter C) w).trace = w.trace ++ sc.calls (connWriter C) w := by
  induction sc generalizing w with
  | ret => simp [Script.run, Script.calls]
  | headerSet k v next ih =>
      simp only [Script.run, Script.calls]
      rw [ih]
      simp [connWriter]
  | write p next ih =>
      simp only [Script.run, Script.calls]
      rw [ih]
      simp [connWriter]
  | writeHeader status next ih =>
      simp only [Script.run, Script.calls]
      rw [ih]
      simp [connWriter]

/-- No call on a writer is a line of standard output. -/
theorem calls_noStdout {S : Type} (W : ResponseWriter S) (sc : Script) (s : S) :
    (sc.calls W s).countP Event.isStdout = 0 := by
  induction sc generalizing s with
  | ret => rfl
  | headerSet k v next ih =>
      simp only [Script.calls, List.countP_cons, Event.isStdout]
      simpa using ih _
  | write p next ih =>
      simp only [Script.calls, List.countP_cons, Event.isStdout]
      simpa using ih _ _ _
  | writeHeader status next ih =>
      simp only [Script.calls, List.countP_cons, Event.isStdout]
      simpa using ih _

/-- A handler body that never calls `WriteHeader` passes it no status. -/
theorem statuses_of_noWriteHeader {S : Type} (W : ResponseWriter S) (sc : Script)
    (h : sc.NoWriteHeader) (s : S) : sc.statuses W s = [] := by
  induction h generalizing s with
  | ret => rfl
  | headerSet k v _ ih => simp only [Script.statuses]; exact ih _
  | write p _ ih => simp only [Script.statuses]; exact ih _ _ _

/-! ## Paths and routes -/

theorem splitSlash_ne_nil (p : List Char) : splitSlash p ≠ [] := by
  cases p with
  | nil => simp [splitSlash]
  | cons c cs =>
      simp only [splitSlash]
      split
      · simp
      · split <;> simp

theorem splitSlash_noSlash (a : List Char) (h : '/' ∉ a) : splitSlash a = [a] := by
  induction a with
  | nil => rfl
  | cons c cs ih =>
      have hc : c ≠ '/' := fun e => h (by simp [e])
      have hcs : '/' ∉ cs := fun e => h (by simp [e])
      simp [splitSlash, hc, ih hcs]

theorem splitSlash_append (a b : List Char) (h : '/' ∉ a) :
    splitSlash (a ++ '/' :: b) = a :: splitSlash b := by
  induction a with
  | nil => simp [splitSlash]
  | cons c cs ih =>
      have hc : c ≠ '/' := fun e => h (by simp [e])
      have hcs : '/' ∉ cs := fun e => h (by simp [e])
      simp [splitSlash, hc, ih hcs]

theorem splitSlash_append_joinSlash (seg : List Char) (rest : List (List Char))
    (hseg : '/' ∉ seg) (h : ∀ s ∈ rest, '/' ∉ s) :
    splitSlash (seg ++ joinSlash rest) = seg :: rest := by
  induction rest generalizing seg with
  | nil => simp [joinSlash, splitSlash_noSlash seg hseg]
  | cons s r ih =>
      simp only [joinSlash]
      rw [splitSlash_append seg _ hseg, ih s (h s (by simp)) (fun t ht => h t (by simp [ht]))]

theorem splitSlash_joinSlash (segs : List (List Char)) (h : ∀ seg ∈ segs, '/' ∉ seg)
    (hne : segs ≠ []) : splitSlash (joinSlash segs) = [] :: segs := by
  cases segs with
  | nil => exact absurd rfl hne
  | cons seg rest =>
      rw [joinSlash, splitSlash, if_pos rfl]
      rw [splitSlash_append_joinSlash seg rest (h seg (by simp)) (fun t ht => h t (by simp [ht]))]

theorem cleanSegs_good (out segs : List (List Char)) (h : ∀ seg ∈ segs, GoodSeg seg) :
    cleanSegs out segs = out.reverse ++ segs := by
  induction segs generalizing out with
  | nil => simp [cleanSegs]
  | cons seg rest ih =>
      obtain ⟨h1, _, h3, h4⟩ := h seg (by simp)
      simp only [cleanSegs, h1, h3, h4, or_self, if_false]
      rw [ih _ (fun s hs => h s (by simp [hs]))]
      simp

/-- A rooted path made of elements `path.Clean` keeps is its own clean form. -/
theorem pathClean_joinSlash (segs : List (List Char)) (h : ∀ seg ∈ segs, GoodSeg seg)
    (hne : segs ≠ []) : pathClean (joinSlash segs) = joinSlash segs := by
  unfold pathClean
  rw [splitSlash_joinSlash segs (fun s hs => (h s hs).2.1) hne]
  have : cleanSegs [] ([] :: segs) = segs := by
    simp only [cleanSegs, true_or, if_true]
    rw [cleanSegs_good _ _ h]; simp
  rw [this]
  cases segs with
  | nil => exact absurd rfl hne
  | cons a l => rfl

theorem joinSlash_head (segs : List (List Char)) (hne : segs ≠ []) :
    (joinSlash segs).head? = some '/' := by
  cases segs with
  | nil => exact absurd rfl hne
  | cons a l => rfl

theorem pathClean_head (p : List Char) : (pathClean p).head? = some '/' := by
  unfold pathClean
  split
  · rfl
  · rename_i segs hs
    exact joinSlash_head _ hs

/-- The canonical form of a path starts with `/`. -/
theorem cleanPath_head (p : String) : (cleanPath p).data.head? = some '/' := by
  have key : ∀ q : List Char, (if q.getLast? = some '/' ∧ pathClean q ≠ ['/']
      then pathClean q ++ ['/'] else pathClean q).head? = some '/' := by
    intro q
    have := pathClean_head q
    split
    · cases hq : pathClean q with
      | nil => rw [hq] at this; simp at this
      | cons c cs => rw [hq] at this; simpa using this
    · exact this
  unfold cleanPath
  split
  · rfl
  · exact key _

theorem matchVar_append (k : List Char → Bool) (seg rest : List Char) (hne : seg ≠ [])
    (hs : '/' ∉ seg) (hk : k rest = true) : matchVar k (seg ++ rest) = true := by
  induction seg with
  | nil => exact absurd rfl hne
  | cons c cs ih =>
      have hc : c ≠ '/' := fun e => hs (by simp [e])
      have hcs : '/' ∉ cs := fun e => hs (by simp [e])
      cases cs with
      | nil => simp [matchVar, hc, hk]
      | cons d ds =>
          have := ih (by simp) hcs
          show matchVar k (c :: (d :: ds ++ rest)) = true
          rw [matchVar]
          simp only [List.cons_append] at this
          simp [hc, this]

theorem matchParts_log (L1 L2 L3 n1 n2 a b : List Char) (ha : a ≠ [] ∧ '/' ∉ a)
    (hb : b ≠ [] ∧ '/' ∉ b) :
    matchParts false [.lit L1, .var n1, .lit L2, .var n2, .lit L3]
      (L1 ++ (a ++ (L2 ++ (b ++ L3)))) = true := by
  have h3 : matchParts false [.lit L3] L3 = true := by
    simp [matchParts, List.isPrefixOf_iff_prefix]
  have h2 : matchParts false [.var n2, .lit L3] (b ++ L3) = true := by
    rw [matchParts]
    exact matchVar_append _ _ _ hb.1 hb.2 h3
  have h1 : matchParts false [.lit L2, .var n2, .lit L3] (L2 ++ (b ++ L3)) = true := by
    rw [matchParts]
    simp [List.isPrefixOf_iff_prefix, h2]
  have h0 : matchParts false [.var n1, .lit L2, .var n2, .lit L3] (a ++ (L2 ++ (b ++ L3)))
      = true := by
    rw [matchParts]
    exact matchVar_append _ _ _ ha.1 ha.2 h1
  rw [matchParts]
  simp [List.isPrefixOf_iff_prefix, h0]

theorem logPath_data (ns pod : String) :
    (logPath ns pod).data = "/api/v1/namespaces/".data ++ (ns.data ++ ("/pods/".data ++
      (pod.data ++ "/log".data))) := by
  simp only [logPath, String.data_append, List.append_assoc]

theorem parse_logTemplate :
    parseTemplate false [] "/api/v1/namespaces/{namespace}/pods/{pod}/log".data =
      [.lit "/api/v1/namespaces/".data, .var "namespace".data, .lit "/pods/".data,
        .var "pod".data, .lit "/log".data] := by decide

theorem logRoute_match (logsHandler : GoHandler) (req : Request) (ns pod : String)
    (hp : req.URL.Path = logPath ns pod)
    (hns : ns.data ≠ [] ∧ '/' ∉ ns.data) (hpod : pod.data ≠ [] ∧ '/' ∉ pod.data) :
    Route.Match (Route.mk "/api/v1/namespaces/{namespace}/pods/{pod}/log" false
      logsHandler) req = true := by
  show matchParts false (parseTemplate false []
    "/api/v1/namespaces/{namespace}/pods/{pod}/log".data) req.URL.Path.data = true
  rw [parse_logTemplate, hp, logPath_data]
  exact matchParts_log _ _ _ _ _ _ _ hns hpod

theorem New_routes (proxyHandler logsHandler : GoHandler) :
    (New proxyHandler logsHandler).routes =
      [Route.mk "/api/v1/namespaces/{namespace}/pods/{pod}/log" false logsHandler,
        Route.mk "/" true proxyHandler] := rfl

theorem New_middlewares (proxyHandler logsHandler : GoHandler) :
    (New proxyHandler logsHandler).middlewares = [loggingMiddleware] := rfl

/-- The catch-all route matches every path that starts with `/`. -/
theorem catchAll_match (proxyHandler : GoHandler) (req : Request)
    (h : req.URL.Path.data.head? = some '/') :
    Route.Match (Route.mk "/" true proxyHandler) req = true := by
  show matchParts true (parseTemplate false [] "/".data) req.URL.Path.data = true
  rw [show parseTemplate false [] "/".data = [.lit ['/']] from by decide]
  cases hd : req.URL.Path.data with
  | nil => rw [hd] at h; simp at h
  | cons c cs =>
      rw [hd] at h
      simp only [List.head?_cons, Option.some.injEq] at h
      simp [matchParts, h, List.isPrefixOf]

theorem getLast?_cons_ne {α : Type} (a : α) (l : List α) (h : l ≠ []) :
    (a :: l).getLast? = l.getLast? := by
  cases l with
  | nil => exact absurd rfl h
  | cons b t => exact List.getLast?_cons_cons

theorem joinSlash_getLast (segs : List (List Char)) (h : ∀ seg ∈ segs, GoodSeg seg)
    (hne : segs ≠ []) : (joinSlash segs).getLast? ≠ some '/' := by
  induction segs with
  | nil => exact absurd rfl hne
  | cons seg rest ih =>
      obtain ⟨h1, h2, _, _⟩ := h seg (by simp)
      cases rest with
      | nil =>
          simp only [joinSlash, List.append_nil]
          rw [getLast?_cons_ne _ _ h1]
          intro hl
          exact h2 (List.mem_of_getLast?_eq_some hl)
      | cons s r =>
          have hr := ih (fun t ht => h t (by simp [ht])) (by simp)
          have hnn : joinSlash (s :: r) ≠ [] := by simp [joinSlash]
          rw [joinSlash, getLast?_cons_ne _ _ (by simp [hnn]),
            List.getLast?_append_of_ne_nil _ hnn]
          exact hr

/-- A path written as good elements, each after a `/`, is in canonical form. -/
theorem cleanPath_of_joinSlash (p : String) (segs : List (List Char))
    (hp : p.data = joinSlash segs) (h : ∀ seg ∈ segs, GoodSeg seg) (hne : segs ≠ []) :
    cleanPath p = p := by
  have hc := pathClean_joinSlash _ h hne
  have hh := joinSlash_head _ hne
  have hl := joinSlash_getLast _ h hne
  have hnil : joinSlash segs ≠ [] := by
    intro e; rw [e] at hh; simp at hh
  apply String.ext
  unfold cleanPath
  rw [hp]
  simp [hnil, hh, hc, hl]

/-- The clean form of a log path whose namespace and pod are kept by `path.Clean`. -/
theorem cleanPath_logPath (ns pod : String) (hns : GoodSeg ns.data) (hpod : GoodSeg pod.data) :
    cleanPath (logPath ns pod) = logPath ns pod := by
  have hj : (logPath ns pod).data = joinSlash ["api".data, "v1".data, "namespaces".data,
      ns.data, "pods".data, pod.data, "log".data] := by
    rw [logPath_data]
    simp [joinSlash]
  have hgood : ∀ seg ∈ ["api".data, "v1".data, "namespaces".data,
      ns.data, "pods".data, pod.data, "log".data], GoodSeg seg := by
    intro seg hseg
    simp only [List.mem_cons, List.mem_singleton, List.not_mem_nil, or_false] at hseg
    rcases hseg with h | h | h | h | h | h | h <;> subst h <;>
      first | exact hns | exact hpod | (unfold GoodSeg; decide)
  exact cleanPath_of_joinSlash _ _ hj hgood (by simp)

/-! ## Serving through the router -/

/-- A request whose path is in canonical form is served by the handler of the
first route that matches, inside `loggingMiddleware`. -/
theorem New_serve_clean {S : Type} (E : Sys S) (proxyHandler logsHandler : GoHandler) (w : S)
    (req : Request) (hclean : cleanPath req.URL.Path = req.URL.Path) :
    (New proxyHandler logsHandler).ServeHTTP.ServeHTTP E w req =
      (loggingMiddleware
        (if Route.Match (Route.mk "/api/v1/namespaces/{namespace}/pods/{pod}/log" false
          logsHandler) req then logsHandler else proxyHandler)).ServeHTTP E w req := by
  have hhead : req.URL.Path.data.head? = some '/' := by
    rw [← hclean]; exact cleanPath_head _
  have hall := catchAll_match proxyHandler req hhead
  simp only [Router.ServeHTTP, hclean, ne_eq, not_true_eq_false, if_false, New_routes,
    New_middlewares, Router.matchRoute, List.find?, Router.chain, List.foldr]
  by_cases hm : Route.Match (Route.mk "/api/v1/namespaces/{namespace}/pods/{pod}/log" false
      logsHandler) req = true
  · simp [hm]
  · simp [hm, hall]

/-- A request whose path is not in canonical form is answered by the router
alone: the `Location` header is set to the URL with the clean path and the
status 301 is written. Neither handler and no middleware runs. -/
theorem New_serve_unclean {S : Type} (E : Sys S) (proxyHandler logsHandler : GoHandler) (w : S)
    (req : Request) (hunclean : cleanPath req.URL.Path ≠ req.URL.Path) :
    (New proxyHandler logsHandler).ServeHTTP.ServeHTTP E w req =
      E.WriteHeader
        (E.HeaderSet w "Location" (req.URL.StringWithPath (cleanPath req.URL.Path))) 301 := by
  simp only [Router.ServeHTTP, ne_eq, hunclean, not_false_eq_true, if_true]

/-- For every handler that never calls `WriteHeader`, the line
`loggingMiddleware` prints carries the status `0`. -/
theorem loggingMiddleware_noWriteHeader {ω : Type} (C : ResponseWriter ω) (next : Handler)
    (w : World ω) (r : Request) (h : (next r).NoWriteHeader) :
    ((loggingMiddleware next.toGo).ServeHTTP (connSys C) w r).trace =
      ((next r).run (connWriter C) w).trace ++ [.Stdout (printlnText 0 r.Method r.RequestURI)] := by
  rw [loggingMiddleware_conn, statuses_of_noWriteHeader _ _ h]
  rfl

/-! ## Claims about the request logger and the router -/

/-- C1 (the code departs from the claim): in the pod-log scenario, with a
handler that writes the body and never calls `WriteHeader`, the handler built
by `New` passes the body on and then prints the status `0`, not `200`: the
recorder's `status` is still the zero value it was created with. -/
theorem C1_body_without_WriteHeader_logs_zero :
    (bodyOnly podLogRequest).NoWriteHeader ∧
    ((New badGateway.toGo bodyOnly.toGo).ServeHTTP.ServeHTTP (connSys okConn)
        { conn := (), trace := [] } podLogRequest).trace =
      [.Write [108, 111, 103],
       .Stdout "0 GET /api/v1/namespaces/default/pods/web-0/log?container=app\n"] ∧
    printlnText 0 podLogRequest.Method podLogRequest.RequestURI ≠
      printlnText 200 podLogRequest.Method podLogRequest.RequestURI := by
  refine ⟨?_, by decide, by decide⟩
  exact Script.NoWriteHeader.write _ (fun _ _ => Script.NoWriteHeader.ret)

/-- C2 (as amended): for every request served by the handler returned by
`New`, one of two things happens. When the path is in canonical form, the
handler of the matching route runs (the log route's if its template matches,
the catch-all's otherwise): the trace grows by the calls of that handler and
then, once it has returned, by exactly one printed line, made of a status, the
method and the request URI; the status is the one the handler passed to
`WriteHeader` last. When the path is not in canonical form, the router answers
by itself: the trace grows by the `Location` header and the status 301 and by
nothing else, so no line is printed. -/
theorem C2_one_log_line_after_handler {ω : Type} (C : ResponseWriter ω)
    (proxyHandler logsHandler : Handler) (w : World ω) (req : Request) :
    let h : Handler :=
      if Route.Match (Route.mk "/api/v1/namespaces/{namespace}/pods/{pod}/log" false
        logsHandler.toGo) req then logsHandler else proxyHandler
    let out := (New proxyHandler.toGo logsHandler.toGo).ServeHTTP.ServeHTTP (connSys C) w req
    (cleanPath req.URL.Path = req.URL.Path →
      out.conn = ((h req).run (connWriter C) w).conn ∧
      (∃ logged : Int,
        out.trace = w.trace ++ (h req).calls (connWriter C) w ++
          [.Stdout (printlnText logged req.Method req.RequestURI)] ∧
        ∀ status, ((h req).statuses (connWriter C) w).getLast? = some status →
          logged = status) ∧
      out.trace.countP Event.isStdout = w.trace.countP Event.isStdout + 1) ∧
    (cleanPath req.URL.Path ≠ req.URL.Path →
      out.conn = C.WriteHeader (C.HeaderSet w.conn "Location"
        (req.URL.StringWithPath (cleanPath req.URL.Path))) 301 ∧
      out.trace = w.trace ++
        [.HeaderSet "Location" (req.URL.StringWithPath (cleanPath req.URL.Path)),
         .WriteHeader 301] ∧
      out.trace.countP Event.isStdout = w.trace.countP Event.isStdout) := by
  intro h out
  constructor
  · intro hclean
    have hout : out = (loggingMiddleware h.toGo).ServeHTTP (connSys C) w req := by
      show (New proxyHandler.toGo logsHandler.toGo).ServeHTTP.ServeHTTP (connSys C) w req = _
      rw [New_serve_clean _ _ _ _ _ hclean]
      congr 2
      show _ = Handler.toGo (if _ then logsHandler else proxyHandler)
      split <;> rfl
    rw [hout, loggingMiddleware_conn, run_conn_calls]
    refine ⟨rfl, ⟨_, rfl, ?_⟩, ?_⟩
    · intro status hs
      rw [hs]
      rfl
    · simp [List.countP_append, calls_noStdout, Event.isStdout]
  · intro hunclean
    have hout : out = (connSys C).WriteHeader ((connSys C).HeaderSet w "Location"
        (req.URL.StringWithPath (cleanPath req.URL.Path))) 301 :=
      New_serve_unclean _ _ _ _ _ hunclean
    rw [hout]
    refine ⟨rfl, ?_, ?_⟩
    · simp [connSys, connWriter]
    · simp [connSys, connWriter, List.countP_append, List.countP_cons, Event.isStdout]

/-- The witness for C2: the pod-log request, served by a handler that answers
502, gets one line; the request `GET //version` gets the redirect and none. -/
theorem C2_one_log_line_after_handler_witness :
    ((New badGateway.toGo badGateway.toGo).ServeHTTP.ServeHTTP (connSys okConn)
        { conn := (), trace := [] } podLogRequest).trace.countP Event.isStdout =
      ([] : List Event).countP Event.isStdout + 1 ∧
    ((New badGateway.toGo badGateway.toGo).ServeHTTP.ServeHTTP (connSys okConn)
        { conn := (), trace := [] } doubleSlashRequest).trace =
      [] ++ [.HeaderSet "Location"
          (doubleSlashRequest.URL.StringWithPath (cleanPath doubleSlashRequest.URL.Path)),
        .WriteHeader 301] :=
  ⟨((C2_one_log_line_after_handler okConn badGateway badGateway
      { conn := (), trace := [] } podLogRequest).1 (by decide)).2.2,
    ((C2_one_log_line_after_handler okConn badGateway badGateway
      { conn := (), trace := [] } doubleSlashRequest).2 (by decide)).2.1⟩

/-- C2 (counterexample): the request `GET //version` reaches the handler
returned by `New`, and its path matches the catch-all route, yet no line is
printed for it: the router answers it itself with a redirect to `/version`. -/
theorem C2_counterexample_redirect_not_logged :
    Route.Match (Route.mk "/" true badGateway.toGo) doubleSlashRequest = true ∧
    ((New badGateway.toGo bodyOnly.toGo).ServeHTTP.ServeHTTP (connSys okConn)
        { conn := (), trace := [] } doubleSlashRequest).trace =
      [.HeaderSet "Location" "/version", .WriteHeader 301] ∧
    ((New badGateway.toGo bodyOnly.toGo).ServeHTTP.ServeHTTP (connSys okConn)
        { conn := (), trace := [] } doubleSlashRequest).trace.countP Event.isStdout ≠ 1 := by
  decide

/-- C3 (as amended): the routes of `New` are the log route and then the
catch-all, which is last. For a request whose path is
`/api/v1/namespaces/{namespace}/pods/{pod}/log` with namespace and pod
non-empty, free of `/` and neither `.` nor `..`, the first matching route is the
log route, and the request is served by `LogsHandler` inside
`loggingMiddleware`, whatever the reverse-proxy handler is. -/
theorem C3_log_route_served_by_LogsHandler {S : Type} (E : Sys S)
    (proxyHandler logsHandler : GoHandler) (w : S) (req : Request) (ns pod : String)
    (hpath : req.URL.Path = "/api/v1/namespaces/" ++ ns ++ "/pods/" ++ pod ++ "/log")
    (hns : ns.data ≠ [] ∧ '/' ∉ ns.data) (hnsDots : ns ≠ "." ∧ ns ≠ "..")
    (hpod : pod.data ≠ [] ∧ '/' ∉ pod.data) (hpodDots : pod ≠ "." ∧ pod ≠ "..") :
    (New proxyHandler logsHandler).routes =
      [Route.mk "/api/v1/namespaces/{namespace}/pods/{pod}/log" false logsHandler,
       Route.mk "/" true proxyHandler] ∧
    Router.matchRoute (New proxyHandler logsHandler).routes req =
      some (Route.mk "/api/v1/namespaces/{namespace}/pods/{pod}/log" false logsHandler) ∧
    (New proxyHandler logsHandler).ServeHTTP.ServeHTTP E w req =
      (loggingMiddleware logsHandler).ServeHTTP E w req := by
  have hm := logRoute_match logsHandler req ns pod hpath hns hpod
  have hgood : ∀ s : String, s.data ≠ [] ∧ '/' ∉ s.data → s ≠ "." ∧ s ≠ ".." →
      GoodSeg s.data := fun s h1 h2 =>
    ⟨h1.1, h1.2, fun e => h2.1 (String.ext e), fun e => h2.2 (String.ext e)⟩
  have hclean : cleanPath req.URL.Path = req.URL.Path := by
    rw [hpath]
    exact cleanPath_logPath ns pod (hgood ns hns hnsDots) (hgood pod hpod hpodDots)
  refine ⟨rfl, ?_, ?_⟩
  · simp [New_routes, Router.matchRoute, List.find?, hm]
  · rw [New_serve_clean _ _ _ _ _ hclean, hm]
    rfl

/-- The witness for C3: the pod-log request, namespace `default`, pod `web-0`. -/
theorem C3_log_route_served_by_LogsHandler_witness :
    (New badGateway.toGo bodyOnly.toGo).ServeHTTP.ServeHTTP (connSys okConn)
        { conn := (), trace := [] } podLogRequest =
      (loggingMiddleware bodyOnly.toGo).ServeHTTP (connSys okConn)
        { conn := (), trace := [] } podLogRequest :=
  (C3_log_route_served_by_LogsHandler (connSys okConn) badGateway.toGo bodyOnly.toGo
    { conn := (), trace := [] } podLogRequest "default" "web-0" (by decide) (by decide)
    (by decide) (by decide) (by decide)).2.2

/-- C3 (counterexample): `..` is a non-empty namespace without `/`, yet the
request `/api/v1/namespaces/../pods/web-0/log` is not served by `LogsHandler`:
the router redirects it to `/api/v1/pods/web-0/log`. -/
theorem C3_counterexample_dot_dot_namespace :
    dotDotRequest.URL.Path = "/api/v1/namespaces/" ++ ".." ++ "/pods/" ++ "web-0" ++ "/log" ∧
    ("..".data ≠ [] ∧ '/' ∉ "..".data) ∧ ("web-0".data ≠ [] ∧ '/' ∉ "web-0".data) ∧
    ((New badGateway.toGo bodyOnly.toGo).ServeHTTP.ServeHTTP (connSys okConn)
        { conn := (), trace := [] } dotDotRequest).trace =
      [.HeaderSet "Location" "/api/v1/pods/web-0/log", .WriteHeader 301] ∧
    ((New badGateway.toGo bodyOnly.toGo).ServeHTTP.ServeHTTP (connSys okConn)
        { conn := (), trace := [] } dotDotRequest).trace ≠
      ((loggingMiddleware bodyOnly.toGo).ServeHTTP (connSys okConn)
        { conn := (), trace := [] } dotDotRequest).trace := by
  decide

/-- C8: for every handler served through `loggingMiddleware`, the calls that
reach the connection's writer are the calls the handler issued on the recorder,
with the same byte slices and statuses in the same order, followed on the trace
only by the printed line; the connection's writer and the trace are left as the
handler alone would have left them, but for that line; and each recorder
method hands its argument to the embedded writer unchanged, `Write` returning
the count and error that writer returned. -/
theorem C8_recorder_is_transparent {ω : Type} (C : ResponseWriter ω) (next : Handler)
    (w : World ω) (req : Request) :
    (∃ line, ((loggingMiddleware next.toGo).ServeHTTP (connSys C) w req).trace =
      w.trace ++ (next req).calls (LogRecorder.sys (connSys C)).toResponseWriter
        { ResponseWriter := w, status := 0 } ++ [.Stdout line]) ∧
    ((loggingMiddleware next.toGo).ServeHTTP (connSys C) w req).conn =
      ((next req).run (connWriter C) w).conn ∧
    (∃ line, ((loggingMiddleware next.toGo).ServeHTTP (connSys C) w req).trace =
      ((next req).run (connWriter C) w).trace ++ [.Stdout line]) ∧
    (∀ {S : Type} (E : Sys S) (rec : LogRecorder S) (p : Bytes),
      LogRecorder.Write E.toResponseWriter rec p =
        ({ ResponseWriter := (E.Write rec.ResponseWriter p).1, status := rec.status },
          (E.Write rec.ResponseWriter p).2.1, (E.Write rec.ResponseWriter p).2.2)) ∧
    (∀ {S : Type} (E : Sys S) (rec : LogRecorder S) (status : Int),
      (LogRecorder.WriteHeader E.toResponseWriter rec status).ResponseWriter =
        E.WriteHeader rec.ResponseWriter status) := by
  rw [loggingMiddleware_conn, calls_recorder]
  refine ⟨⟨printlnText (((next req).statuses (connWriter C) w).getLast?.getD 0) req.Method
    req.RequestURI, ?_⟩, rfl, ⟨_, rfl⟩, fun _ _ _ => rfl, fun _ _ _ => rfl⟩
  show ((next req).run (connWriter C) w).trace ++ _ =
    w.trace ++ (next req).calls (connWriter C) w ++ _
  rw [run_conn_calls]

/-- C9 (as amended): last write wins. The recorder stores the status of every
`WriteHeader` call over the one before, so for every handler that calls
`WriteHeader` the status recorded, and printed, is the one passed to the last
call. -/
theorem C9_last_WriteHeader_wins {ω : Type} (C : ResponseWriter ω) (next : Handler)
    (w : World ω) (req : Request) (status : Int)
    (hlast : ((next req).statuses (connWriter C) w).getLast? = some status) :
    ((next req).run (LogRecorder.sys (connSys C)).toResponseWriter
        { ResponseWriter := w, status := 0 }).status = status ∧
    ((loggingMiddleware next.toGo).ServeHTTP (connSys C) w req).trace.getLast? =
      some (.Stdout (printlnText status req.Method req.RequestURI)) := by
  constructor
  · rw [run_recorder]
    show (((next req).statuses (connWriter C) w).getLast?).getD 0 = status
    rw [hlast]; rfl
  · rw [loggingMiddleware_conn, hlast]
    simp only [List.getLast?_concat]
    rfl

/-- The witness for C9: the handler that passes 404 and then 500. -/
theorem C9_last_WriteHeader_wins_witness :
    ((loggingMiddleware headerTwice.toGo).ServeHTTP (connSys okConn)
        { conn := (), trace := [] } podLogRequest).trace.getLast? =
      some (.Stdout (printlnText 500 podLogRequest.Method podLogRequest.RequestURI)) :=
  (C9_last_WriteHeader_wins okConn headerTwice { conn := (), trace := [] } podLogRequest 500
    (by decide)).2

/-- C9 (counterexample): the handler calls `WriteHeader(404)` and then
`WriteHeader(500)`; the status recorded and printed is 500, not the 404 of the
first call. -/
theorem C9_counterexample_second_status_recorded :
    (headerTwice podLogRequest).statuses (connWriter okConn) { conn := (), trace := [] } =
      [404, 500] ∧
    ((headerTwice podLogRequest).run (LogRecorder.sys (connSys okConn)).toResponseWriter
        { ResponseWriter := { conn := (), trace := [] }, status := 0 }).status ≠ 404 ∧
    ((loggingMiddleware headerTwice.toGo).ServeHTTP (connSys okConn)
        { conn := (), trace := [] } podLogRequest).trace =
      [.WriteHeader 404, .WriteHeader 500,
       .Stdout "500 GET /api/v1/namespaces/default/pods/web-0/log?container=app\n"] := by
  decide

end Proxy

namespace Envtest

/-! ## Runs of `setupEnvtest` -/

/-- The run when `CheckCoherence` panics. -/
theorem setup_panic_CheckCoherence {σ : Type} (ops : EnvOps σ) (e e1 : Env σ) (r : String)
    (h1 : ops.CheckCoherence e = .panic e1 r) :
    setupEnvtest ops e =
      { path := "", err := recoveredError r, e := e1, calls := [.CheckCoherence] } := by
  simp [setupEnvtest, setupEnvtest.body, bind, Run.bind, call, h1, recoveredError]

/-- The run when `EnsureBaseDirs` panics. -/
theorem setup_panic_EnsureBaseDirs {σ : Type} (ops : EnvOps σ) (e e1 e2 : Env σ) (r : String)
    (h1 : ops.CheckCoherence e = .ok e1 ()) (h2 : ops.EnsureBaseDirs e1 = .panic e2 r) :
    setupEnvtest ops e =
      { path := "", err := recoveredError r, e := e2,
        calls := [.CheckCoherence, .EnsureBaseDirs] } := by
  simp [setupEnvtest, setupEnvtest.body, bind, Run.bind, call, h1, h2, recoveredError]

/-- The run when `EnsureVersionIsSet` panics. -/
theorem setup_panic_EnsureVersionIsSet {σ : Type} (ops : EnvOps σ) (e e1 e2 e3 : Env σ)
    (r : String) (h1 : ops.CheckCoherence e = .ok e1 ()) (h2 : ops.EnsureBaseDirs e1 = .ok e2 ())
    (h3 : ops.EnsureVersionIsSet e2 = .panic e3 r) :
    setupEnvtest ops e =
      { path := "", err := recoveredError r, e := e3,
        calls := [.CheckCoherence, .EnsureBaseDirs, .EnsureVersionIsSet] } := by
  simp [setupEnvtest, setupEnvtest.body, bind, Run.bind, call, h1, h2, h3, recoveredError]

/-- The run when `ExistsAndValid` panics. -/
theorem setup_panic_ExistsAndValid {σ : Type} (ops : EnvOps σ) (e e1 e2 e3 e4 : Env σ)
    (r : String) (h1 : ops.CheckCoherence e = .ok e1 ()) (h2 : ops.EnsureBaseDirs e1 = .ok e2 ())
    (h3 : ops.EnsureVersionIsSet e2 = .ok e3 ()) (h4 : ops.ExistsAndValid e3 = .panic e4 r) :
    setupEnvtest ops e =
      { path := "", err := recoveredError r, e := e4,
        calls := [.CheckCoherence, .EnsureBaseDirs, .EnsureVersionIsSet, .ExistsAndValid] } := by
  simp [setupEnvtest, setupEnvtest.body, bind, Run.bind, call, h1, h2, h3, h4, recoveredError]

/-- The run when the entry is not valid and `Fetch` panics. -/
theorem setup_panic_Fetch {σ : Type} (ops : EnvOps σ) (e e1 e2 e3 e4 e5 : Env σ)
    (r : String) (h1 : ops.CheckCoherence e = .ok e1 ()) (h2 : ops.EnsureBaseDirs e1 = .ok e2 ())
    (h3 : ops.EnsureVersionIsSet e2 = .ok e3 ()) (h4 : ops.ExistsAndValid e3 = .ok e4 false)
    (h5 : ops.Fetch e4 = .panic e5 r) :
    setupEnvtest ops e =
      { path := "", err := recoveredError r, e := e5,
        calls := [.CheckCoherence, .EnsureBaseDirs, .EnsureVersionIsSet, .ExistsAndValid,
          .Fetch] } := by
  simp [setupEnvtest, setupEnvtest.body, bind, Run.bind, call, h1, h2, h3, h4, h5,
    recoveredError]

/-- The run when the entry is valid: `Fetch` is skipped; `PrintInfo` is called
with `Out` an empty buffer and either returns or panics. -/
theorem setup_valid {σ : Type} (ops : EnvOps σ) (e e1 e2 e3 e4 : Env σ)
    (h1 : ops.CheckCoherence e = .ok e1 ()) (h2 : ops.EnsureBaseDirs e1 = .ok e2 ())
    (h3 : ops.EnsureVersionIsSet e2 = .ok e3 ()) (h4 : ops.ExistsAndValid e3 = .ok e4 true) :
    setupEnvtest ops e =
      match ops.PrintInfo { e4 with Out := some "" } .PrintPath with
      | .ok e6 text =>
          { path := text, err := none, e := { e6 with Out := none },
            calls := [.CheckCoherence, .EnsureBaseDirs, .EnsureVersionIsSet, .ExistsAndValid,
              .PrintInfo] }
      | .panic e6 r =>
          { path := "", err := recoveredError r, e := e6,
            calls := [.CheckCoherence, .EnsureBaseDirs, .EnsureVersionIsSet, .ExistsAndValid,
              .PrintInfo] } := by
  cases hp : ops.PrintInfo { e4 with Out := some "" } .PrintPath <;>
    simp [setupEnvtest, setupEnvtest.body, bind, Run.bind, call, h1, h2, h3, h4, pure,
      Run.pure, setOut, recoveredError, hp]

/-- The run when the entry is not valid and `Fetch` returns: `PrintInfo` is the
next and last method called. -/
theorem setup_fetched {σ : Type} (ops : EnvOps σ) (e e1 e2 e3 e4 e5 : Env σ)
    (h1 : ops.CheckCoherence e = .ok e1 ()) (h2 : ops.EnsureBaseDirs e1 = .ok e2 ())
    (h3 : ops.EnsureVersionIsSet e2 = .ok e3 ()) (h4 : ops.ExistsAndValid e3 = .ok e4 false)
    (h5 : ops.Fetch e4 = .ok e5 ()) :
    setupEnvtest ops e =
      match ops.PrintInfo { e5 with Out := some "" } .PrintPath with
      | .ok e6 text =>
          { path := text, err := none, e := { e6 with Out := none },
            calls := [.CheckCoherence, .EnsureBaseDirs, .EnsureVersionIsSet, .ExistsAndValid,
              .Fetch, .PrintInfo] }
      | .panic e6 r =>
          { path := "", err := recoveredError r, e := e6,
            calls := [.CheckCoherence, .EnsureBaseDirs, .EnsureVersionIsSet, .ExistsAndValid,
              .Fetch, .PrintInfo] } := by
  cases hp : ops.PrintInfo { e5 with Out := some "" } .PrintPath <;>
    simp [setupEnvtest, setupEnvtest.body, bind, Run.bind, call, h1, h2, h3, h4, h5, pure,
      Run.pure, setOut, recoveredError, hp]

/-- Every run of `setupEnvtest` either returns what `PrintInfo` wrote into the
empty buffer, with a `nil` error, after one of the two complete call
sequences; or returns the empty string and the recovered error, the calls
being a sequence cut at the method that panicked. -/
theorem setup_shape {σ : Type} (ops : EnvOps σ) (e : Env σ) :
    ((setupEnvtest ops e).err = none ∧
      ((setupEnvtest ops e).calls = validCalls ∨ (setupEnvtest ops e).calls = fetchCalls) ∧
      ∃ e5 e6 : Env σ, ops.PrintInfo { e5 with Out := some "" } .PrintPath =
          .ok e6 (setupEnvtest ops e).path ∧
        (setupEnvtest ops e).e = { e6 with Out := none }) ∨
    ((∃ r, (setupEnvtest ops e).err = recoveredError r) ∧ (setupEnvtest ops e).path = "" ∧
      ((setupEnvtest ops e).calls = validCalls.take 1 ∨
        (setupEnvtest ops e).calls = validCalls.take 2 ∨
        (setupEnvtest ops e).calls = validCalls.take 3 ∨
        (setupEnvtest ops e).calls = validCalls.take 4 ∨
        (setupEnvtest ops e).calls = validCalls ∨
        (setupEnvtest ops e).calls = fetchCalls.take 5 ∨
        (setupEnvtest ops e).calls = fetchCalls)) := by
  cases h1 : ops.CheckCoherence e with
  | panic e1 r =>
      rw [setup_panic_CheckCoherence ops e e1 r h1]
      exact Or.inr ⟨⟨r, rfl⟩, rfl, by simp [validCalls]⟩
  | ok e1 u1 =>
  cases h2 : ops.EnsureBaseDirs e1 with
  | panic e2 r =>
      rw [setup_panic_EnsureBaseDirs ops e e1 e2 r h1 h2]
      exact Or.inr ⟨⟨r, rfl⟩, rfl, by simp [validCalls]⟩
  | ok e2 u2 =>
  cases h3 : ops.EnsureVersionIsSet e2 with
  | panic e3 r =>
      rw [setup_panic_EnsureVersionIsSet ops e e1 e2 e3 r h1 h2 h3]
      exact Or.inr ⟨⟨r, rfl⟩, rfl, by simp [validCalls]⟩
  | ok e3 u3 =>
  cases h4 : ops.ExistsAndValid e3 with
  | panic e4 r =>
      rw [setup_panic_ExistsAndValid ops e e1 e2 e3 e4 r h1 h2 h3 h4]
      exact Or.inr ⟨⟨r, rfl⟩, rfl, by simp [validCalls]⟩
  | ok e4 valid =>
  cases valid with
  | true =>
      rw [setup_valid ops e e1 e2 e3 e4 h1 h2 h3 h4]
      cases hp : ops.PrintInfo { e4 with Out := some "" } .PrintPath with
      | ok e6 text => exact Or.inl ⟨rfl, Or.inl rfl, e4, e6, hp, rfl⟩
      | panic e6 r => exact Or.inr ⟨⟨r, rfl⟩, rfl, by simp [validCalls]⟩
  | false =>
  cases h5 : ops.Fetch e4 with
  | panic e5 r =>
      rw [setup_panic_Fetch ops e e1 e2 e3 e4 e5 r h1 h2 h3 h4 h5]
      exact Or.inr ⟨⟨r, rfl⟩, rfl, by simp [validCalls, fetchCalls]⟩
  | ok e5 u5 =>
      rw [setup_fetched ops e e1 e2 e3 e4 e5 h1 h2 h3 h4 h5]
      cases hp : ops.PrintInfo { e5 with Out := some "" } .PrintPath with
      | ok e6 text => exact Or.inl ⟨rfl, Or.inr rfl, e5, e6, hp, rfl⟩
      | panic e6 r => exact Or.inr ⟨⟨r, rfl⟩, rfl, by simp [validCalls, fetchCalls]⟩

/-- In no run is `ExistsAndValid` called twice. -/
theorem setup_validates_at_most_once {σ : Type} (ops : EnvOps σ) (e : Env σ) :
    (setupEnvtest ops e).calls.count .ExistsAndValid ≤ 1 := by
  rcases setup_shape ops e with ⟨_, h | h, _⟩ | ⟨_, _, h | h | h | h | h | h | h⟩ <;>
    rw [h] <;> decide

/-- What `Prepare` returns once `DetectK8sVersion` and `createEnvtest` have succeeded. -/
theorem Prepare_after_create {σ β : Type} (host : Host σ)
    (DetectK8sVersion : β → Except String String) (ops : EnvOps σ) (b : β)
    (opts : List (Env σ → Env σ)) (v : String) (envConfig : Env σ)
    (hdetect : DetectK8sVersion b = .ok v)
    (hcreate : createEnvtest host { Selector := v } = .ok envConfig) :
    Prepare host DetectK8sVersion ops b opts =
      match (setupEnvtest ops (applyOptions opts envConfig)).err with
      | some err =>
          { env := none, err := some err,
            events := [.DetectK8sVersion, .Log "Detected %q k8s version" v, .createEnvtest] ++
              (List.range opts.length).map .ApplyOption ++
              (setupEnvtest ops (applyOptions opts envConfig)).calls.map .Step }
      | none =>
          { env := some
              { BinaryAssetsDirectory := (setupEnvtest ops (applyOptions opts envConfig)).path },
            err := none,
            events := [.DetectK8sVersion, .Log "Detected %q k8s version" v, .createEnvtest] ++
              (List.range opts.length).map .ApplyOption ++
              (setupEnvtest ops (applyOptions opts envConfig)).calls.map .Step ++
              [.Log "Using envtest binaries from directory: %s\n"
                (setupEnvtest ops (applyOptions opts envConfig)).path] } := by
  simp only [Prepare, hdetect, hcreate]
  cases (setupEnvtest ops (applyOptions opts envConfig)).err <;> simp

/-! ## Claims about provisioning -/

/-- C4: in `setupEnvtest`, once the three steps before it have returned and
`ExistsAndValid` has returned, everything turns on its answer. When it was
`true`, `Fetch` is not called: `PrintInfo` runs on the state `ExistsAndValid`
left, the result does not depend on what `Fetch` would do, and `Fetch` is not
among the calls. When it was `false`, `Fetch` is called exactly once, on the
state `ExistsAndValid` left: if it returns, `PrintInfo` runs on the state
`Fetch` left; if it panics, that state is where `setupEnvtest` stops; and
`Fetch` is among the calls once. -/
theorem C4_fetch_iff_not_valid {σ : Type} (ops : EnvOps σ) (e e1 e2 e3 e4 : Env σ)
    (valid : Bool) (h1 : ops.CheckCoherence e = .ok e1 ())
    (h2 : ops.EnsureBaseDirs e1 = .ok e2 ()) (h3 : ops.EnsureVersionIsSet e2 = .ok e3 ())
    (h4 : ops.ExistsAndValid e3 = .ok e4 valid) :
    (valid = false →
      (setupEnvtest ops e).calls.count .Fetch = 1 ∧
      (∀ e5, ops.Fetch e4 = .ok e5 () →
        setupEnvtest ops e =
          match ops.PrintInfo { e5 with Out := some "" } .PrintPath with
          | .ok e6 text =>
              { path := text, err := none, e := { e6 with Out := none },
                calls := [.CheckCoherence, .EnsureBaseDirs, .EnsureVersionIsSet,
                  .ExistsAndValid, .Fetch, .PrintInfo] }
          | .panic e6 r =>
              { path := "", err := some ("failed setting up env: " ++ r), e := e6,
                calls := [.CheckCoherence, .EnsureBaseDirs, .EnsureVersionIsSet,
                  .ExistsAndValid, .Fetch, .PrintInfo] }) ∧
      (∀ e5 r, ops.Fetch e4 = .panic e5 r →
        setupEnvtest ops e =
          { path := "", err := some ("failed setting up env: " ++ r), e := e5,
            calls := [.CheckCoherence, .EnsureBaseDirs, .EnsureVersionIsSet,
              .ExistsAndValid, .Fetch] })) ∧
    (valid = true →
      (setupEnvtest ops e).calls.count .Fetch = 0 ∧
      (∀ fetch : Env σ → Ret (Env σ) Unit,
        setupEnvtest { ops with Fetch := fetch } e = setupEnvtest ops e) ∧
      setupEnvtest ops e =
        match ops.PrintInfo { e4 with Out := some "" } .PrintPath with
        | .ok e6 text =>
            { path := text, err := none, e := { e6 with Out := none },
              calls := [.CheckCoherence, .EnsureBaseDirs, .EnsureVersionIsSet,
                .ExistsAndValid, .PrintInfo] }
        | .panic e6 r =>
            { path := "", err := some ("failed setting up env: " ++ r), e := e6,
              calls := [.CheckCoherence, .EnsureBaseDirs, .EnsureVersionIsSet,
                .ExistsAndValid, .PrintInfo] }) := by
  cases valid with
  | true =>
      refine ⟨fun h => Bool.noConfusion h, fun _ => ⟨?_, ?_, ?_⟩⟩
      · rw [setup_valid ops e e1 e2 e3 e4 h1 h2 h3 h4]
        cases ops.PrintInfo { e4 with Out := some "" } .PrintPath <;> rfl
      · intro fetch
        rw [setup_valid ops e e1 e2 e3 e4 h1 h2 h3 h4,
          setup_valid { ops with Fetch := fetch } e e1 e2 e3 e4 h1 h2 h3 h4]
      · exact setup_valid ops e e1 e2 e3 e4 h1 h2 h3 h4
  | false =>
      refine ⟨fun _ => ⟨?_, ?_, ?_⟩, fun h => Bool.noConfusion h⟩
      · cases h5 : ops.Fetch e4 with
        | panic e5 r =>
            rw [setup_panic_Fetch ops e e1 e2 e3 e4 e5 r h1 h2 h3 h4 h5]
            rfl
        | ok e5 u =>
            rw [setup_fetched ops e e1 e2 e3 e4 e5 h1 h2 h3 h4 h5]
            cases ops.PrintInfo { e5 with Out := some "" } .PrintPath <;> rfl
      · intro e5 h5
        exact setup_fetched ops e e1 e2 e3 e4 e5 h1 h2 h3 h4 h5
      · intro e5 r h5
        exact setup_panic_Fetch ops e e1 e2 e3 e4 e5 r h1 h2 h3 h4 h5

/-- The witness for C4: an empty cache, then one fetch, after which the
binaries are installed; a full cache, and a run that no `Fetch` can change. -/
theorem C4_fetch_iff_not_valid_witness :
    (setupEnvtest (diskOps true) (env127 false)).calls.count .Fetch = 1 ∧
    (setupEnvtest (diskOps true) (env127 false)).e.sys.installed = true ∧
    setupEnvtest { diskOps true with Fetch := (panicOps .Fetch).Fetch } (env127 true) =
      setupEnvtest (diskOps true) (env127 true) :=
  ⟨((C4_fetch_iff_not_valid (diskOps true) (env127 false) (env127 false) (env127 false)
      (env127 false) (env127 false) false rfl rfl rfl rfl).1 rfl).1,
    by
      rw [((C4_fetch_iff_not_valid (diskOps true) (env127 false) (env127 false)
        (env127 false) (env127 false) (env127 false) false rfl rfl rfl rfl).1 rfl).2.1
        { env127 true with Out := none } rfl]
      rfl,
    ((C4_fetch_iff_not_valid (diskOps true) (env127 true) (env127 true) (env127 true)
      (env127 true) (env127 true) true rfl rfl rfl rfl).2 rfl).2.1 _⟩

/-- C5 (as amended): when the entry is found not valid and `Fetch` returns,
`PrintInfo` is the next method called: the path it writes is returned with a
`nil` error and `ExistsAndValid` has been called once, before the fetch. -/
theorem C5_no_validation_after_fetch {σ : Type} (ops : EnvOps σ)
    (e e1 e2 e3 e4 e5 e6 : Env σ) (text : String)
    (h1 : ops.CheckCoherence e = .ok e1 ()) (h2 : ops.EnsureBaseDirs e1 = .ok e2 ())
    (h3 : ops.EnsureVersionIsSet e2 = .ok e3 ()) (h4 : ops.ExistsAndValid e3 = .ok e4 false)
    (h5 : ops.Fetch e4 = .ok e5 ())
    (h6 : ops.PrintInfo { e5 with Out := some "" } .PrintPath = .ok e6 text) :
    setupEnvtest ops e =
      { path := text, err := none, e := { e6 with Out := none },
        calls := [.CheckCoherence, .EnsureBaseDirs, .EnsureVersionIsSet, .ExistsAndValid,
          .Fetch, .PrintInfo] } ∧
    (setupEnvtest ops e).calls.count .ExistsAndValid = 1 := by
  rw [setup_fetched ops e e1 e2 e3 e4 e5 h1 h2 h3 h4 h5, h6]
  exact ⟨rfl, rfl⟩

/-- The witness for C5: an empty cache and a `Fetch` that installs the binaries. -/
theorem C5_no_validation_after_fetch_witness :
    (setupEnvtest (diskOps true) (env127 false)).calls.count .ExistsAndValid = 1 :=
  (C5_no_validation_after_fetch (diskOps true) (env127 false) (env127 false) (env127 false)
    (env127 false) (env127 false) { env127 true with Out := none }
    { env127 true with Out := some "" }
    "/home/u/.local/share/kubebuilder-envtest/k8s/1.27.3-linux-amd64"
    rfl rfl rfl rfl rfl rfl).2

/-- C5 (counterexample): on a machine where `Fetch` returns without the
binaries being installed, `setupEnvtest` calls nothing between `Fetch` and
`PrintInfo` and returns the path with a `nil` error, although the binaries are
still not there. -/
theorem C5_counterexample_unchecked_fetch :
    (setupEnvtest (diskOps false) (env127 false)).calls =
      [.CheckCoherence, .EnsureBaseDirs, .EnsureVersionIsSet, .ExistsAndValid, .Fetch,
        .PrintInfo] ∧
    (setupEnvtest (diskOps false) (env127 false)).err = none ∧
    (setupEnvtest (diskOps false) (env127 false)).path =
      "/home/u/.local/share/kubebuilder-envtest/k8s/1.27.3-linux-amd64" ∧
    (setupEnvtest (diskOps false) (env127 false)).e.sys.installed = false := by
  decide

/-- C6: whichever method of `setupEnvtest` panics, the calls end with it, the
path returned is empty and the error is the one built from the panic value (a
panic of `CheckCoherence` leaves it the only method called); and when
`setupEnvtest` returns an error, `Prepare` returns a `nil` environment with
that error. -/
theorem C6_panic_aborts {σ : Type} (ops : EnvOps σ) (e : Env σ) :
    (∀ e1 r, ops.CheckCoherence e = .panic e1 r →
      setupEnvtest ops e =
        { path := "", err := some ("failed setting up env: " ++ r), e := e1,
          calls := [.CheckCoherence] }) ∧
    (∀ e1 e2 r, ops.CheckCoherence e = .ok e1 () → ops.EnsureBaseDirs e1 = .panic e2 r →
      setupEnvtest ops e =
        { path := "", err := some ("failed setting up env: " ++ r), e := e2,
          calls := [.CheckCoherence, .EnsureBaseDirs] }) ∧
    (∀ e1 e2 e3 r, ops.CheckCoherence e = .ok e1 () → ops.EnsureBaseDirs e1 = .ok e2 () →
      ops.EnsureVersionIsSet e2 = .panic e3 r →
      setupEnvtest ops e =
        { path := "", err := some ("failed setting up env: " ++ r), e := e3,
          calls := [.CheckCoherence, .EnsureBaseDirs, .EnsureVersionIsSet] }) ∧
    (∀ e1 e2 e3 e4 r, ops.CheckCoherence e = .ok e1 () → ops.EnsureBaseDirs e1 = .ok e2 () →
      ops.EnsureVersionIsSet e2 = .ok e3 () → ops.ExistsAndValid e3 = .panic e4 r →
      setupEnvtest ops e =
        { path := "", err := some ("failed setting up env: " ++ r), e := e4,
          calls := [.CheckCoherence, .EnsureBaseDirs, .EnsureVersionIsSet,
            .ExistsAndValid] }) ∧
    (∀ e1 e2 e3 e4 e5 r, ops.CheckCoherence e = .ok e1 () → ops.EnsureBaseDirs e1 = .ok e2 () →
      ops.EnsureVersionIsSet e2 = .ok e3 () → ops.ExistsAndValid e3 = .ok e4 false →
      ops.Fetch e4 = .panic e5 r →
      setupEnvtest ops e =
        { path := "", err := some ("failed setting up env: " ++ r), e := e5,
          calls := [.CheckCoherence, .EnsureBaseDirs, .EnsureVersionIsSet, .ExistsAndValid,
            .Fetch] }) ∧
    (∀ e1 e2 e3 e4 e6 r, ops.CheckCoherence e = .ok e1 () → ops.EnsureBaseDirs e1 = .ok e2 () →
      ops.EnsureVersionIsSet e2 = .ok e3 () → ops.ExistsAndValid e3 = .ok e4 true →
      ops.PrintInfo { e4 with Out := some "" } .PrintPath = .panic e6 r →
      setupEnvtest ops e =
        { path := "", err := some ("failed setting up env: " ++ r), e := e6,
          calls := [.CheckCoherence, .EnsureBaseDirs, .EnsureVersionIsSet, .ExistsAndValid,
            .PrintInfo] }) ∧
    (∀ e1 e2 e3 e4 e5 e6 r, ops.CheckCoherence e = .ok e1 () →
      ops.EnsureBaseDirs e1 = .ok e2 () → ops.EnsureVersionIsSet e2 = .ok e3 () →
      ops.ExistsAndValid e3 = .ok e4 false → ops.Fetch e4 = .ok e5 () →
      ops.PrintInfo { e5 with Out := some "" } .PrintPath = .panic e6 r →
      setupEnvtest ops e =
        { path := "", err := some ("failed setting up env: " ++ r), e := e6,
          calls := [.CheckCoherence, .EnsureBaseDirs, .EnsureVersionIsSet, .ExistsAndValid,
            .Fetch, .PrintInfo] }) ∧
    (∀ {β : Type} (host : Host σ) (DetectK8sVersion : β → Except String String) (b : β)
      (opts : List (Env σ → Env σ)) (v : String) (envConfig : Env σ) (err : String),
      DetectK8sVersion b = .ok v → createEnvtest host { Selector := v } = .ok envConfig →
      applyOptions opts envConfig = e → (setupEnvtest ops e).err = some err →
      (Prepare host DetectK8sVersion ops b opts).env = none ∧
      (Prepare host DetectK8sVersion ops b opts).err = some err) := by
  refine ⟨?_, ?_, ?_, ?_, ?_, ?_, ?_, ?_⟩
  · intro e1 r h1
    exact setup_panic_CheckCoherence ops e e1 r h1
  · intro e1 e2 r h1 h2
    exact setup_panic_EnsureBaseDirs ops e e1 e2 r h1 h2
  · intro e1 e2 e3 r h1 h2 h3
    exact setup_panic_EnsureVersionIsSet ops e e1 e2 e3 r h1 h2 h3
  · intro e1 e2 e3 e4 r h1 h2 h3 h4
    exact setup_panic_ExistsAndValid ops e e1 e2 e3 e4 r h1 h2 h3 h4
  · intro e1 e2 e3 e4 e5 r h1 h2 h3 h4 h5
    exact setup_panic_Fetch ops e e1 e2 e3 e4 e5 r h1 h2 h3 h4 h5
  · intro e1 e2 e3 e4 e6 r h1 h2 h3 h4 h6
    rw [setup_valid ops e e1 e2 e3 e4 h1 h2 h3 h4, h6]
    rfl
  · intro e1 e2 e3 e4 e5 e6 r h1 h2 h3 h4 h5 h6
    rw [setup_fetched ops e e1 e2 e3 e4 e5 h1 h2 h3 h4 h5, h6]
    rfl
  · intro β host detect b opts v envConfig err hdetect hcreate hopts herr
    rw [Prepare_after_create host detect ops b opts v envConfig hdetect hcreate, hopts, herr]
    exact ⟨rfl, rfl⟩

/-- The witness for C6: the download fails on an empty cache. -/
theorem C6_panic_aborts_witness :
    setupEnvtest (panicOps .Fetch) (env127 false) =
      { path := "", err := some ("failed setting up env: " ++ "download failed"),
        e := env127 false,
        calls := [.CheckCoherence, .EnsureBaseDirs, .EnsureVersionIsSet, .ExistsAndValid,
          .Fetch] } ∧
    (Prepare (linuxHost false) detectFrom (panicOps .Fetch) (some "1.27.3") []).env = none ∧
    (Prepare (linuxHost false) detectFrom (panicOps .Fetch) (some "1.27.3") []).err =
      some "failed setting up env: download failed" :=
  ⟨(C6_panic_aborts (panicOps .Fetch) (env127 false)).2.2.2.2.1 (env127 false) (env127 false)
      (env127 false) (env127 false) (env127 false) "download failed" rfl rfl rfl rfl rfl,
    (C6_panic_aborts (panicOps .Fetch) (env127 false)).2.2.2.2.2.2.2 (linuxHost false)
      detectFrom (some "1.27.3") [] "1.27.3" (env127 false)
      "failed setting up env: download failed" rfl rfl rfl (by decide)⟩

/-- C7: when `DetectK8sVersion` returns an error, `Prepare` returns a `nil`
environment and an error built from it, and has done nothing but call
`DetectK8sVersion`: no config is created, no option applied, no method of the
config called. -/
theorem C7_detection_error_stops_Prepare {σ β : Type} (host : Host σ)
    (DetectK8sVersion : β → Except String String) (ops : EnvOps σ) (b : β)
    (opts : List (Env σ → Env σ)) (err : String) (hdetect : DetectK8sVersion b = .error err) :
    Prepare host DetectK8sVersion ops b opts =
      { env := none, err := some ("failed to detect k8s version: " ++ err),
        events := [.DetectK8sVersion] } := by
  simp only [Prepare, hdetect]

/-- The witness for C7: a bundle without a version. -/
theorem C7_detection_error_stops_Prepare_witness :
    Prepare (linuxHost false) detectFrom (diskOps true) none [] =
      { env := none, err := some ("failed to detect k8s version: " ++ "no version in bundle"),
        events := [.DetectK8sVersion] } :=
  C7_detection_error_stops_Prepare (linuxHost false) detectFrom (diskOps true) none []
    "no version in bundle" rfl

/-- C10 (as amended): when `DetectK8sVersion` returns a version, `createEnvtest`
returns a config and `setupEnvtest`, run on that config with the options
applied in order, returns no error, then: the config was created for the spec
whose selector is that version; the last method `setupEnvtest` called is
`PrintInfo(PrintPath)`, with an empty buffer as `Out`, and it wrote the text
`path`; and `Prepare` returns a `nil` error with an environment whose only
field set is `BinaryAssetsDirectory`, equal to `path`. Its events are the
detection, the creation of the config, the options in order, the methods of
`setupEnvtest`, and the closing log line. -/
theorem C10_Prepare_returns_printed_path {σ β : Type} (host : Host σ)
    (DetectK8sVersion : β → Except String String) (ops : EnvOps σ) (b : β)
    (opts : List (Env σ → Env σ)) (v : String) (envConfig : Env σ)
    (hdetect : DetectK8sVersion b = .ok v)
    (hcreate : createEnvtest host { Selector := v } = .ok envConfig)
    (hsetup : (setupEnvtest ops (opts.foldl (fun e o => o e) envConfig)).err = none) :
    envConfig.Version = { Selector := v } ∧
    ∃ (e5 e6 : Env σ) (path : String),
      ops.PrintInfo { e5 with Out := some "" } .PrintPath = .ok e6 path ∧
      (setupEnvtest ops (opts.foldl (fun e o => o e) envConfig)).e = { e6 with Out := none } ∧
      (setupEnvtest ops (opts.foldl (fun e o => o e) envConfig)).calls.getLast? =
        some .PrintInfo ∧
      Prepare host DetectK8sVersion ops b opts =
        { env := some { BinaryAssetsDirectory := path }, err := none,
          events := [.DetectK8sVersion, .Log "Detected %q k8s version" v, .createEnvtest] ++
            (List.range opts.length).map .ApplyOption ++
            (setupEnvtest ops (opts.foldl (fun e o => o e) envConfig)).calls.map .Step ++
            [.Log "Using envtest binaries from directory: %s\n" path] } := by
  constructor
  · unfold createEnvtest at hcreate
    cases hd : host.DefaultStoreDir with
    | error err => rw [hd] at hcreate; cases hcreate
    | ok dataDir =>
        rw [hd] at hcreate
        simp only [Except.ok.injEq] at hcreate
        rw [← hcreate]
  · have hp := Prepare_after_create host DetectK8sVersion ops b opts v envConfig hdetect hcreate
    rcases setup_shape ops (opts.foldl (fun e o => o e) envConfig) with
      ⟨_, hcalls, e5, e6, hprint, hfinal⟩ | ⟨⟨r, hr⟩, _, _⟩
    · refine ⟨e5, e6, _, hprint, hfinal, ?_, ?_⟩
      · rcases hcalls with h | h <;> rw [h] <;> rfl
      · rw [hp]
        show (match (setupEnvtest ops (opts.foldl (fun e o => o e) envConfig)).err with
          | some err => _ | none => _) = _
        rw [hsetup]
        rfl
    · rw [hsetup] at hr
      cases hr

/-- The witness for C10: version 1.27.3 on a Linux host with an empty cache and
one option. -/
theorem C10_Prepare_returns_printed_path_witness :
    (env127 false).Version = { Selector := "1.27.3" } ∧
    (Prepare (linuxHost false) detectFrom (diskOps true) (some "1.27.3")
      [fun e => { e with VerifySum := true }]).err = none :=
  ⟨(C10_Prepare_returns_printed_path (linuxHost false) detectFrom (diskOps true)
    (some "1.27.3") [fun e => { e with VerifySum := true }] "1.27.3" (env127 false) rfl rfl
    (by decide)).1, by decide⟩

/-- C10 (counterexample): the version is detected and no method panics (none
is called), yet `Prepare` returns an error and no environment, because
`store.DefaultStoreDir` failed in `createEnvtest`. -/
theorem C10_counterexample_no_store_dir :
    detectFrom (some "1.27.3") = .ok "1.27.3" ∧
    Prepare homelessHost detectFrom (diskOps true) (some "1.27.3") [] =
      { env := none, err := some "neither $XDG_DATA_HOME nor $HOME are defined",
        events := [.DetectK8sVersion, .Log "Detected %q k8s version" "1.27.3",
          .createEnvtest] } := by
  exact ⟨rfl, by decide⟩

end Envtest
